import Mathlib

/-!
Verification of the reconciliation engine of `conda compare`
(`src/conda/cli/main_compare.py`): the specification-matching loop
`compare_packages`, the diff-rendering loop `display_table`, and the
temporary-file discipline of `compare_envs`.

Python strings are modelled as Lean `String` (operating on `String.data`,
the underlying character list, so that everything computes by kernel
reduction); the Python dict `active_pkgs` is modelled as an association
list queried through `List.lookup`; a Python function that may raise is
modelled in `Except`, and the raise aborts the remaining statements.
-/

/-- An installed package record: the three fields `compare_packages` reads
(`active_pkg.name`, `active_pkg.version`, `active_pkg.build`). -/
structure PackageRecord where
  name : String
  version : String
  build : String
deriving Repr, DecidableEq

/-- The inventory passed to `compare_packages`: a name-keyed mapping
(built in `execute` as a dict, so keys are unique), modelled as an
association list queried with `List.lookup`. -/
abbrev Inventory := List (String × PackageRecord)

/-- A parsed specification entry: a canonical name plus optional
version/build predicates (`none` = absent or wildcard constraint). -/
structure MatchSpec where
  name : String
  version : Option String
  build : Option String
deriving Repr, DecidableEq

/-- Split a character list at every occurrence of `c` (the groups do not
contain `c`; n separators yield n+1 groups, as Python str.split does). -/
def splitOnChar (c : Char) : List Char → List (List Char)
  | [] => [[]]
  | x :: xs =>
    if x = c then [] :: splitOnChar c xs
    else
      match splitOnChar c xs with
      | [] => [[x]]
      | g :: gs => (x :: g) :: gs

/-- Modelled from the spec: the `MatchSpec` constructor itself lives
outside the sources under verification (src/ holds only the CLI module),
so its parsing contract is taken from the spec. A specification entry is
textual `name[=version[=build]]` (spec section 3 and the examples
`"numpy=1.2=0"`, `"flask"`), parsed into a canonical name plus zero or
more version/build match predicates, where an absent or wildcard (`*`)
constraint field means no predicate; structurally invalid text — an entry
with an empty name, an empty constraint field, or more than two constraint
fields — fails fast with a parse error attributed to that entry
(spec sections 4.1 and 7). -/
def MatchSpec.parse (s : String) : Except String MatchSpec :=
  let wild : List Char → Option String :=
    fun cs => if cs = ['*'] then none else some (String.mk cs)
  match splitOnChar '=' s.data with
  | [n] =>
    if n.isEmpty then .error ("invalid package specification: " ++ s)
    else .ok ⟨String.mk n, none, none⟩
  | [n, v] =>
    if n.isEmpty || v.isEmpty then .error ("invalid package specification: " ++ s)
    else .ok ⟨String.mk n, wild v, none⟩
  | [n, v, b] =>
    if n.isEmpty || v.isEmpty || b.isEmpty then
      .error ("invalid package specification: " ++ s)
    else .ok ⟨String.mk n, wild v, wild b⟩
  | _ => .error ("invalid package specification: " ++ s)

/-- Modelled from the spec: `MatchSpec.match` is external to src/; per
spec section 4.1 a record satisfies the predicate iff its version and
build string equal the constraint or the constraint is absent/wildcard. -/
def MatchSpec.matches (m : MatchSpec) (r : PackageRecord) : Bool :=
  (match m.version with | none => true | some v => r.version == v) &&
  (match m.build with | none => true | some b => r.build == b)

/-- The `"<name> not found"` line of `compare_packages`. -/
def notFoundLine (name : String) : String := name ++ " not found"

/-- The mismatch line of `compare_packages`:
`f"{name} found but mismatch. Specification pkg: {pkg}, Running pkg: {name}=={version}={build}"`. -/
def mismatchLine (name pkg : String) (r : PackageRecord) : String :=
  name ++ " found but mismatch. Specification pkg: " ++ pkg ++
    ", Running pkg: " ++ r.name ++ "==" ++ r.version ++ "=" ++ r.build

/-- The success line appended when no miss occurred. -/
def successLine : String :=
  "Success. All the packages in the specification file are present in the environment with matching version and build string."

/-- The `for pkg in specification_pkgs` loop of `compare_packages`,
returning the `miss` flag and the accumulated `output` list, or the parse
error raised at the first malformed entry (a raised exception aborts the
loop and discards the partial output, as in Python). -/
def compareAux (active_pkgs : Inventory) : List String → Except String (Bool × List String)
  | [] => .ok (false, [])
  | pkg :: rest =>
    match MatchSpec.parse pkg with
    | .error e => .error e
    | .ok pkg_spec =>
      match compareAux active_pkgs rest with
      | .error e => .error e
      | .ok (miss, out) =>
        match active_pkgs.lookup pkg_spec.name with
        | some active_pkg =>
          if pkg_spec.matches active_pkg then .ok (miss, out)
          else .ok (true, mismatchLine pkg_spec.name pkg active_pkg :: out)
        | none => .ok (true, notFoundLine pkg_spec.name :: out)

/-- `compare_packages(active_pkgs, specification_pkgs)` from
`src/conda/cli/main_compare.py`: runs the loop, appends the success line
when no miss occurred, and returns `(int(miss), output)`. -/
def compare_packages (active_pkgs : Inventory) (specification_pkgs : List String) :
    Except String (Nat × List String) :=
  match compareAux active_pkgs specification_pkgs with
  | .error e => .error e
  | .ok (miss, output) =>
    if miss then .ok (1, output) else .ok (0, output ++ [successLine])

/-- The per-entry explanation line as the spec describes it (section 4.1
steps b and c): `none` for a silent pass, `some line` for a Missing or
Mismatched verdict, `none` also on entries that do not parse (used only to
characterise outputs of runs in which every entry parses). -/
def verdictLine (active_pkgs : Inventory) (pkg : String) : Option String :=
  match MatchSpec.parse pkg with
  | .error _ => none
  | .ok sp =>
    match active_pkgs.lookup sp.name with
    | some r => if sp.matches r then none else some (mismatchLine sp.name pkg r)
    | none => some (notFoundLine sp.name)

/-- One rendered row of the diff table: the package label and its
presence in each environment (`true` = Present, `false` = Absent). The
ANSI colouring and column padding of the `print` calls are presentation
only; the row triple is the testable artifact. -/
structure DiffRow where
  package : String
  inEnv1 : Bool
  inEnv2 : Bool
deriving Repr, DecidableEq

/-- `line.startswith("<")` for a one-character marker: Python inspects
only the first character of the line. -/
def startsWithChar (c : Char) (s : String) : Bool :=
  match s.data with
  | [] => false
  | x :: _ => x = c

/-- Python `line[2:]`: drop the first two characters (yields the empty
string when the line is shorter than two characters). -/
def dropTwo (s : String) : String := String.mk (s.data.drop 2)

/-- Python `str.splitlines` restricted to `\n` boundaries: like splitting
on the newline character, except that a trailing newline does not produce
a final empty line and the empty string has no lines. -/
def splitlines (s : String) : List String :=
  match (splitOnChar '\n' s.data).reverse with
  | [] => []
  | last :: rest => ((if last.isEmpty then rest else last :: rest).reverse).map String.mk

/-- The `for line in diff_output.splitlines()` loop of `display_table`:
a `<` line emits one Present/Absent row from `line[2:]`, a `>` line one
Absent/Present row, any other line emits nothing. -/
def displayRows : List String → List DiffRow
  | [] => []
  | line :: rest =>
    if startsWithChar '<' line then
      ⟨dropTwo line, true, false⟩ :: displayRows rest
    else if startsWithChar '>' line then
      ⟨dropTwo line, false, true⟩ :: displayRows rest
    else
      displayRows rest

/-- `display_table(diff_output, env1, env2)` from
`src/conda/cli/main_compare.py`, as the sequence of rows it prints (the
header and the environment labels are presentation only). -/
def display_table (diff_output : String) : List DiffRow :=
  displayRows (splitlines diff_output)

/-- A working directory, modelled as the list of file names present. -/
abbrev FileSys := List String

/-- `open(f, "w")` style creation: the file is present afterwards. -/
def fsCreate (f : String) (fs : FileSys) : FileSys :=
  if f ∈ fs then fs else fs ++ [f]

/-- `os.remove(f)`: the file is absent afterwards. -/
def fsRemove (f : String) (fs : FileSys) : FileSys :=
  fs.filter (fun g => g ≠ f)

/-- `compare_envs(env1, env2)` from `src/conda/cli/main_compare.py`,
statement by statement, with the working directory passed explicitly and
the two fallible external effects abstracted by flags: `os.system`
materialises `env1_packages.txt` and `env2_packages.txt`; then the diff
subprocess step runs (`diffRaises` = its exception, e.g. a decode error);
then `display_table` renders (`renderRaises` = an exception while
rendering); only then do the two `os.remove` statements run. The source
has no try/finally, so a raise returns the working directory as it stood
at the raise (first component: the exception, if one was raised). -/
def compare_envs (env1 env2 : String) (fs : FileSys) (diffRaises renderRaises : Bool) :
    Option String × FileSys :=
  let fs1 := fsCreate "env2_packages.txt" (fsCreate "env1_packages.txt" fs)
  if diffRaises then (some ("diff step raised comparing " ++ env1 ++ " " ++ env2), fs1)
  else if renderRaises then (some ("rendering raised comparing " ++ env1 ++ " " ++ env2), fs1)
  else (none, fsRemove "env2_packages.txt" (fsRemove "env1_packages.txt" fs1))

example : MatchSpec.parse "numpy=1.2=0" = .ok ⟨"numpy", some "1.2", some "0"⟩ := rfl
example : MatchSpec.parse "flask" = .ok ⟨"flask", none, none⟩ := rfl
example : MatchSpec.parse "=" = .error "invalid package specification: =" := rfl
example : compare_packages [("numpy", ⟨"numpy", "1.2", "0"⟩)] ["numpy=1.2=0"] =
    .ok (0, [successLine]) := rfl
example : compare_packages [("numpy", ⟨"numpy", "1.2", "0"⟩), ("requests", ⟨"requests", "2.0", "0"⟩)]
    ["numpy=1.2=0", "flask"] = .ok (1, ["flask not found"]) := rfl
example : splitlines "a\nb\n" = ["a", "b"] := rfl
example : splitlines "" = [] := rfl
example : display_table "< foo-1.0\n---\n> bar-2.0" =
    [⟨"foo-1.0", true, false⟩, ⟨"bar-2.0", false, true⟩] := rfl
example : display_table "<" = [⟨"", true, false⟩] := rfl
example : compare_envs "a" "b" [] false false = (none, []) := rfl
example : compare_envs "a" "b" [] false true =
    (some "rendering raised comparing a b", ["env1_packages.txt", "env2_packages.txt"]) := rfl

/-! ### Helper lemmas about the comparison loop -/

/-- When every entry parses, the loop completes and its output is exactly
the per-entry verdict lines, in specification order. -/
theorem compareAux_eq_filterMap (active_pkgs : Inventory) (specs : List String)
    (h : ∀ s ∈ specs, ∃ m, MatchSpec.parse s = .ok m) :
    compareAux active_pkgs specs =
      .ok (!(specs.filterMap (verdictLine active_pkgs)).isEmpty,
        specs.filterMap (verdictLine active_pkgs)) := by
  induction specs with
  | nil => rfl
  | cons s rest ih =>
    obtain ⟨m, hm⟩ := h s (List.mem_cons_self s rest)
    have hrest := ih (fun t ht => h t (List.mem_cons_of_mem s ht))
    simp only [compareAux, hm, hrest, List.filterMap_cons, verdictLine]
    cases hl : active_pkgs.lookup m.name with
    | some r =>
      cases hmt : m.matches r with
      | true => simp [hl, hmt]
      | false => simp [hl, hmt]
    | none => simp [hl]

/-- The loop consults the inventory only through `List.lookup`, so two
inventories with the same lookup function produce the same result. -/
theorem compareAux_lookup_congr (i₁ i₂ : Inventory) (specs : List String)
    (h : ∀ n, i₁.lookup n = i₂.lookup n) :
    compareAux i₁ specs = compareAux i₂ specs := by
  induction specs with
  | nil => rfl
  | cons s rest ih =>
    simp only [compareAux, ih, h]

/-- When the `miss` flag is set, at least one explanation line was
appended. -/
theorem compareAux_output_ne_nil (active_pkgs : Inventory) (specs : List String)
    (out : List String) (h : compareAux active_pkgs specs = .ok (true, out)) :
    out ≠ [] := by
  induction specs generalizing out with
  | nil => exact absurd h (by simp [compareAux])
  | cons s rest ih =>
    simp only [compareAux] at h
    cases hp : MatchSpec.parse s with
    | error e => rw [hp] at h; exact absurd h (by simp)
    | ok m =>
      rw [hp] at h
      cases hr : compareAux active_pkgs rest with
      | error e => rw [hr] at h; exact absurd h (by simp)
      | ok p =>
        obtain ⟨miss, o⟩ := p
        rw [hr] at h
        dsimp only at h
        cases hl : active_pkgs.lookup m.name with
        | some r =>
          rw [hl] at h
          dsimp only at h
          cases hmt : m.matches r with
          | true =>
            simp [hmt] at h
            obtain ⟨h1, h2⟩ := h
            subst h1; subst h2
            exact ih _ hr
          | false =>
            simp [hmt] at h
            subst h; simp
        | none =>
          rw [hl] at h
          dsimp only at h
          simp at h
          subst h; simp

/-- Fail-fast: with every entry before `e` well-formed and `e` malformed,
the loop raises the parse error of `e`; the entries after `e` do not
influence the result and no partial output survives. -/
theorem compareAux_failfast (active_pkgs : Inventory) (pre : List String)
    (e : String) (post : List String) (err : String)
    (hpre : ∀ s ∈ pre, ∃ m, MatchSpec.parse s = .ok m)
    (he : MatchSpec.parse e = .error err) :
    compareAux active_pkgs (pre ++ e :: post) = .error err := by
  induction pre with
  | nil => simp [compareAux, he]
  | cons s rest ih =>
    obtain ⟨m, hm⟩ := hpre s (List.mem_cons_self s rest)
    have hrest := ih (fun t ht => hpre t (List.mem_cons_of_mem s ht))
    simp [compareAux, hm, hrest]

/-- On well-formed input the loop never raises. -/
theorem compareAux_isOk (active_pkgs : Inventory) (specs : List String)
    (h : ∀ s ∈ specs, ∃ m, MatchSpec.parse s = .ok m) :
    ∃ miss out, compareAux active_pkgs specs = .ok (miss, out) :=
  ⟨_, _, compareAux_eq_filterMap active_pkgs specs h⟩

/-- Packaged characterisation of `compare_packages` on well-formed input:
outcome `0` with exactly the success line appended when no verdict line
was produced, outcome `1` with exactly the verdict lines otherwise. -/
theorem compare_packages_eq (active_pkgs : Inventory) (specs : List String)
    (h : ∀ s ∈ specs, ∃ m, MatchSpec.parse s = .ok m) :
    compare_packages active_pkgs specs =
      (if (specs.filterMap (verdictLine active_pkgs)).isEmpty then
        .ok (0, specs.filterMap (verdictLine active_pkgs) ++ [successLine])
      else .ok (1, specs.filterMap (verdictLine active_pkgs))) := by
  simp only [compare_packages, compareAux_eq_filterMap active_pkgs specs h]
  cases hemp : (specs.filterMap (verdictLine active_pkgs)).isEmpty <;> simp [hemp]

/-! ### Claim theorems -/

/-- Claim C1: for every inventory and specification list in which every
entry names a package present in the inventory whose record satisfies the
version/build predicate of the entry, `compare_packages` returns outcome code
`0` and an output list containing exactly one line, the success message. -/
theorem c1_all_matched_success (active_pkgs : Inventory) (specs : List String)
    (h : ∀ s ∈ specs, ∃ m r, MatchSpec.parse s = .ok m ∧
      active_pkgs.lookup m.name = some r ∧ m.matches r = true) :
    compare_packages active_pkgs specs = .ok (0, [successLine]) := by
  have hparse : ∀ s ∈ specs, ∃ m, MatchSpec.parse s = .ok m := by
    intro s hs
    obtain ⟨m, r, h1, -, -⟩ := h s hs
    exact ⟨m, h1⟩
  have hnil : specs.filterMap (verdictLine active_pkgs) = [] := by
    rw [List.filterMap_eq_nil_iff]
    intro s hs
    obtain ⟨m, r, h1, h2, h3⟩ := h s hs
    simp [verdictLine, h1, h2, h3]
  simp [compare_packages_eq active_pkgs specs hparse, hnil]

/-- Witness for C1, on the second example scenario of the spec. -/
theorem c1_witness :
    compare_packages [("numpy", ⟨"numpy", "1.2", "0"⟩)] ["numpy=1.2=0"] =
      .ok (0, [successLine]) :=
  c1_all_matched_success _ _ (by
    intro s hs
    simp only [List.mem_singleton] at hs
    subst hs
    exact ⟨⟨"numpy", some "1.2", some "0"⟩, ⟨"numpy", "1.2", "0"⟩, rfl, rfl, rfl⟩)

/-- Claim C2, counterexample to the claim as stated: with inventory `{}`
and specification list `["flask", "="]`, the entry `"flask"` parses to a
name absent from the inventory, yet `compare_packages` does not return
outcome `1` with a "not found" line — the malformed sibling entry `"="`
raises a parse error, so the function returns no outcome/output pair at
all. -/
theorem c2_counterexample :
    (∃ m, MatchSpec.parse "flask" = .ok m ∧ ([] : Inventory).lookup m.name = none) ∧
    ¬ ∃ c out, compare_packages ([] : Inventory) ["flask", "="] = .ok (c, out) := by
  refine ⟨⟨⟨"flask", none, none⟩, rfl, rfl⟩, ?_⟩
  rintro ⟨c, out, h⟩
  have he : compare_packages ([] : Inventory) ["flask", "="] =
      .error "invalid package specification: =" := rfl
  rw [he] at h
  exact Except.noConfusion h

/-- Claim C2 (amended): for every inventory and specification list whose
entries are all well-formed, if some entry parses to a name that is not a
key of the inventory, then `compare_packages` returns outcome code `1`
and its output contains the line `"<name> not found"`. -/
theorem c2_missing_reported (active_pkgs : Inventory) (specs : List String)
    (e : String) (m : MatchSpec)
    (hwf : ∀ s ∈ specs, ∃ m', MatchSpec.parse s = .ok m')
    (he : e ∈ specs) (hp : MatchSpec.parse e = .ok m)
    (habs : active_pkgs.lookup m.name = none) :
    ∃ out, compare_packages active_pkgs specs = .ok (1, out) ∧
      notFoundLine m.name ∈ out := by
  have hline : verdictLine active_pkgs e = some (notFoundLine m.name) := by
    simp [verdictLine, hp, habs]
  have hmem : notFoundLine m.name ∈ specs.filterMap (verdictLine active_pkgs) :=
    List.mem_filterMap.mpr ⟨e, he, hline⟩
  have hne : specs.filterMap (verdictLine active_pkgs) ≠ [] := List.ne_nil_of_mem hmem
  refine ⟨specs.filterMap (verdictLine active_pkgs), ?_, hmem⟩
  rcases hfm : specs.filterMap (verdictLine active_pkgs) with - | ⟨a, l⟩
  · exact absurd hfm hne
  · rw [compare_packages_eq active_pkgs specs hwf, hfm]
    simp

/-- Witness for (amended) C2, on the first example scenario of the spec. -/
theorem c2_witness :
    ∃ out, compare_packages
      [("numpy", ⟨"numpy", "1.2", "0"⟩), ("requests", ⟨"requests", "2.0", "0"⟩)]
      ["numpy=1.2=0", "flask"] = .ok (1, out) ∧ notFoundLine "flask" ∈ out :=
  c2_missing_reported _ _ "flask" ⟨"flask", none, none⟩
    (by
      intro s hs
      simp only [List.mem_cons, List.mem_singleton] at hs
      rcases hs with rfl | rfl | hs
      · exact ⟨⟨"numpy", some "1.2", some "0"⟩, rfl⟩
      · exact ⟨⟨"flask", none, none⟩, rfl⟩
      · exact absurd hs (List.not_mem_nil s))
    (by simp) rfl rfl

/-- Claim C3, counterexample to the claim as stated: with inventory
`{numpy: (numpy, 1.2, 0)}` and specification list `["numpy=9.9=0", "="]`,
the entry `"numpy=9.9=0"` names a present package whose record fails its
predicate, yet `compare_packages` does not return outcome `1` with a
mismatch line — the malformed sibling entry `"="` raises a parse error,
so the function returns no outcome/output pair at all. -/
theorem c3_counterexample :
    (∃ m r, MatchSpec.parse "numpy=9.9=0" = .ok m ∧
      ([("numpy", ⟨"numpy", "1.2", "0"⟩)] : Inventory).lookup m.name = some r ∧
      m.matches r = false) ∧
    ¬ ∃ c out, compare_packages [("numpy", ⟨"numpy", "1.2", "0"⟩)]
      ["numpy=9.9=0", "="] = .ok (c, out) := by
  refine ⟨⟨⟨"numpy", some "9.9", some "0"⟩, ⟨"numpy", "1.2", "0"⟩, rfl, rfl, rfl⟩, ?_⟩
  rintro ⟨c, out, h⟩
  have he : compare_packages [("numpy", ⟨"numpy", "1.2", "0"⟩)] ["numpy=9.9=0", "="] =
      .error "invalid package specification: =" := rfl
  rw [he] at h
  exact Except.noConfusion h

/-- Claim C3 (amended): for every inventory and specification list whose
entries are all well-formed, if some entry names a package present in the
inventory whose record does not satisfy the predicate of the entry, then
`compare_packages` returns outcome code `1` and its output contains a
line that includes both the original specification text of the entry and
the installed record rendered as `name==version=build`. -/
theorem c3_mismatch_reported (active_pkgs : Inventory) (specs : List String)
    (e : String) (m : MatchSpec) (r : PackageRecord)
    (hwf : ∀ s ∈ specs, ∃ m', MatchSpec.parse s = .ok m')
    (he : e ∈ specs) (hp : MatchSpec.parse e = .ok m)
    (hpres : active_pkgs.lookup m.name = some r)
    (hmiss : m.matches r = false) :
    ∃ out, compare_packages active_pkgs specs = .ok (1, out) ∧
      ∃ line ∈ out,
        (∃ p q, line.data = p ++ e.data ++ q) ∧
        (∃ p q, line.data =
          p ++ (r.name ++ "==" ++ r.version ++ "=" ++ r.build).data ++ q) := by
  have hline : verdictLine active_pkgs e = some (mismatchLine m.name e r) := by
    simp [verdictLine, hp, hpres, hmiss]
  have hmem : mismatchLine m.name e r ∈ specs.filterMap (verdictLine active_pkgs) :=
    List.mem_filterMap.mpr ⟨e, he, hline⟩
  have hne : specs.filterMap (verdictLine active_pkgs) ≠ [] := List.ne_nil_of_mem hmem
  refine ⟨specs.filterMap (verdictLine active_pkgs), ?_, mismatchLine m.name e r, hmem, ?_, ?_⟩
  · rcases hfm : specs.filterMap (verdictLine active_pkgs) with - | ⟨a, l⟩
    · exact absurd hfm hne
    · rw [compare_packages_eq active_pkgs specs hwf, hfm]
      simp
  · refine ⟨(m.name ++ " found but mismatch. Specification pkg: ").data,
      (", Running pkg: " ++ r.name ++ "==" ++ r.version ++ "=" ++ r.build).data, ?_⟩
    simp [mismatchLine, String.data_append, List.append_assoc]
  · refine ⟨(m.name ++ " found but mismatch. Specification pkg: " ++ e ++
      ", Running pkg: ").data, [], ?_⟩
    simp [mismatchLine, String.data_append, List.append_assoc]

/-- Witness for (amended) C3: `numpy` is installed at `1.2` build `0` but
specified as `9.9` build `0`. -/
theorem c3_witness :
    ∃ out, compare_packages [("numpy", ⟨"numpy", "1.2", "0"⟩)] ["numpy=9.9=0"] =
      .ok (1, out) ∧
      ∃ line ∈ out,
        (∃ p q, line.data = p ++ ("numpy=9.9=0" : String).data ++ q) ∧
        (∃ p q, line.data =
          p ++ (("numpy" : String) ++ "==" ++ "1.2" ++ "=" ++ "0").data ++ q) :=
  c3_mismatch_reported _ _ "numpy=9.9=0" ⟨"numpy", some "9.9", some "0"⟩
    ⟨"numpy", "1.2", "0"⟩
    (by
      intro s hs
      simp only [List.mem_singleton] at hs
      subst hs
      exact ⟨⟨"numpy", some "9.9", some "0"⟩, rfl⟩)
    (by simp) rfl rfl rfl

/-- Claim C4: for every inventory and specification list of well-formed
entries, a Missing or Mismatched verdict never aborts processing: the run
completes over all entries (the result is an outcome/output pair, not an
exception), the output holds exactly one explanation line per failing
entry, and when any entry fails the outcome code is `1` and the output is
exactly those lines with no success line appended. -/
theorem c4_soft_failures_never_abort (active_pkgs : Inventory) (specs : List String)
    (h : ∀ s ∈ specs, ∃ m, MatchSpec.parse s = .ok m) :
    (specs.filterMap (verdictLine active_pkgs) = [] →
      compare_packages active_pkgs specs = .ok (0, [successLine])) ∧
    (specs.filterMap (verdictLine active_pkgs) ≠ [] →
      compare_packages active_pkgs specs =
        .ok (1, specs.filterMap (verdictLine active_pkgs))) := by
  constructor
  · intro hnil
    simp [compare_packages_eq active_pkgs specs h, hnil]
  · intro hne
    rcases hfm : specs.filterMap (verdictLine active_pkgs) with - | ⟨a, l⟩
    · exact absurd hfm hne
    · rw [compare_packages_eq active_pkgs specs h, hfm]
      simp

/-- Witness for C4: one missing entry and one mismatched entry, both
reported, in order, with outcome `1` and no success line. -/
theorem c4_witness :
    compare_packages [("numpy", ⟨"numpy", "1.2", "0"⟩)] ["flask", "numpy=9.9=0"] =
      .ok (1, ["flask not found",
        "numpy found but mismatch. Specification pkg: numpy=9.9=0, Running pkg: numpy==1.2=0"]) :=
  (c4_soft_failures_never_abort [("numpy", ⟨"numpy", "1.2", "0"⟩)] ["flask", "numpy=9.9=0"]
    (by
      intro s hs
      simp only [List.mem_cons, List.mem_singleton] at hs
      rcases hs with rfl | rfl | hs
      · exact ⟨⟨"flask", none, none⟩, rfl⟩
      · exact ⟨⟨"numpy", some "9.9", some "0"⟩, rfl⟩
      · exact absurd hs (List.not_mem_nil s))).2 (by decide)

/-- Claim C5: on well-formed input, the Missing/Mismatched lines of
`compare_packages` appear in the same relative order as their entries in
the specification list (the output is a filter-map of the entry list, in
specification order — no re-sorting), and the result is independent of
the iteration order of the inventory (any two inventories with the same
lookup function give the same result). -/
theorem c5_order_preservation :
    (∀ (active_pkgs : Inventory) (specs : List String),
      (∀ s ∈ specs, ∃ m, MatchSpec.parse s = .ok m) →
      ∀ c out, compare_packages active_pkgs specs = .ok (c, out) →
        out = specs.filterMap (verdictLine active_pkgs) ∨
        out = specs.filterMap (verdictLine active_pkgs) ++ [successLine]) ∧
    (∀ (i₁ i₂ : Inventory) (specs : List String),
      (∀ n, i₁.lookup n = i₂.lookup n) →
      compare_packages i₁ specs = compare_packages i₂ specs) := by
  constructor
  · intro active_pkgs specs h c out hrun
    rw [compare_packages_eq active_pkgs specs h] at hrun
    split at hrun
    · right
      injection hrun with hpair
      injection hpair with hc hout
      exact hout.symm
    · left
      injection hrun with hpair
      injection hpair with hc hout
      exact hout.symm
  · intro i₁ i₂ specs hl
    unfold compare_packages
    rw [compareAux_lookup_congr i₁ i₂ specs hl]

/-- Witness for C5: a two-entry inventory given in both orders yields the
same result, and the output of a concrete failing run is the filter-map of the
specification list. -/
theorem c5_witness :
    compare_packages [("a", ⟨"a", "1", "0"⟩), ("b", ⟨"b", "2", "0"⟩)] ["b", "a", "c"] =
      compare_packages [("b", ⟨"b", "2", "0"⟩), ("a", ⟨"a", "1", "0"⟩)] ["b", "a", "c"] ∧
    (["flask not found"] = ["flask"].filterMap (verdictLine ([] : Inventory)) ∨
      ["flask not found"] =
        ["flask"].filterMap (verdictLine ([] : Inventory)) ++ [successLine]) :=
  ⟨c5_order_preservation.2 _ _ _ (by
      intro n
      by_cases h1 : n = "a"
      · subst h1; rfl
      · by_cases h2 : n = "b"
        · subst h2; rfl
        · have e1 : (n == "a") = false := by simp [h1]
          have e2 : (n == "b") = false := by simp [h2]
          simp [List.lookup, e1, e2]),
    c5_order_preservation.1 [] ["flask"]
      (by
        intro s hs
        simp only [List.mem_singleton] at hs
        subst hs
        exact ⟨⟨"flask", none, none⟩, rfl⟩)
      1 ["flask not found"] rfl⟩

/-- Claim C6: a specification list containing a malformed entry (with
every entry before it well-formed) makes `compare_packages` fail fast
with the parse error of that entry: no verdict is produced for it, the
entries after it are not processed (the result does not depend on them),
and no partial outcome/output pair is returned. -/
theorem c6_failfast (active_pkgs : Inventory) (pre : List String)
    (e : String) (post : List String) (err : String)
    (hpre : ∀ s ∈ pre, ∃ m, MatchSpec.parse s = .ok m)
    (he : MatchSpec.parse e = .error err) :
    compare_packages active_pkgs (pre ++ e :: post) = .error err := by
  simp [compare_packages, compareAux_failfast active_pkgs pre e post err hpre he]

/-- Witness for C6: the malformed entry `"="` aborts the comparison even
though `"flask"` before it is well-formed and `"numpy"` follows it. -/
theorem c6_witness :
    MatchSpec.parse "=" = .error "invalid package specification: =" ∧
    compare_packages [] ["flask", "=", "numpy"] =
      .error "invalid package specification: =" :=
  ⟨rfl, c6_failfast [] ["flask"] "=" ["numpy"] "invalid package specification: ="
    (by
      intro s hs
      simp only [List.mem_singleton] at hs
      subst hs
      exact ⟨⟨"flask", none, none⟩, rfl⟩)
    rfl⟩

/-- Claim C9: on the empty specification list `compare_packages` returns
outcome code `0` and exactly the success line; and whenever it returns an
outcome/output pair at all, the output list is non-empty. -/
theorem c9_empty_specs_success :
    (∀ active_pkgs : Inventory, compare_packages active_pkgs [] = .ok (0, [successLine])) ∧
    (∀ (active_pkgs : Inventory) (specs : List String) (c : Nat) (out : List String),
      compare_packages active_pkgs specs = .ok (c, out) → out ≠ []) := by
  constructor
  · intro active_pkgs
    rfl
  · intro active_pkgs specs c out h
    unfold compare_packages at h
    cases hr : compareAux active_pkgs specs with
    | error e =>
      rw [hr] at h
      exact absurd h (by simp)
    | ok p =>
      obtain ⟨miss, o⟩ := p
      rw [hr] at h
      dsimp only at h
      cases miss with
      | false =>
        simp at h
        obtain ⟨-, h2⟩ := h
        subst h2
        simp
      | true =>
        simp at h
        obtain ⟨-, h2⟩ := h
        subst h2
        exact compareAux_output_ne_nil active_pkgs specs o hr

/-- Witness for C9: the empty run on the empty inventory. -/
theorem c9_witness :
    compare_packages ([] : Inventory) [] = .ok (0, [successLine]) ∧
    ([successLine] : List String) ≠ [] :=
  ⟨c9_empty_specs_success.1 [], c9_empty_specs_success.2 [] [] 0 [successLine] rfl⟩

/-- The loop of `display_table` is a filter-map over the lines: each line
contributes its classified row, or nothing, independently of the other
lines. -/
theorem displayRows_eq_filterMap (lines : List String) :
    displayRows lines = lines.filterMap (fun line =>
      if startsWithChar '<' line then some ⟨dropTwo line, true, false⟩
      else if startsWithChar '>' line then some ⟨dropTwo line, false, true⟩
      else none) := by
  induction lines with
  | nil => rfl
  | cons l rest ih =>
    simp only [displayRows, List.filterMap_cons, ih]
    cases h1 : startsWithChar '<' l <;> cases h2 : startsWithChar '>' l <;> simp [h1, h2]

/-- Claim C7: `display_table` processes the lines of the diff text in
input order without deduplication — a line starting with `<` yields
exactly one row with the two-character marker prefix stripped, marked
present-in-A/absent-in-B; a line starting with `>` yields exactly one row
marked absent-in-A/present-in-B; any other line yields no row; and a
stream with both a `<` and a `>` line for the same package yields two
independent rows. -/
theorem c7_diff_rendering :
    (∀ diff_output : String,
      display_table diff_output = (splitlines diff_output).filterMap (fun line =>
        if startsWithChar '<' line then some ⟨dropTwo line, true, false⟩
        else if startsWithChar '>' line then some ⟨dropTwo line, false, true⟩
        else none)) ∧
    display_table "< foo-1.0\n---\n> foo-1.0" =
      [⟨"foo-1.0", true, false⟩, ⟨"foo-1.0", false, true⟩] :=
  ⟨fun diff_output => displayRows_eq_filterMap (splitlines diff_output), rfl⟩

/-- Claim C10: diff-line classification inspects only the first character
of a line and then unconditionally drops the first two characters; a line
whose first character is `<` (or `>`) always emits its row, even when the
second character is not a space or the line is shorter than two
characters, with the package field possibly empty. -/
theorem c10_marker_strip (line : String) :
    (startsWithChar '<' line = true →
      displayRows [line] = [⟨dropTwo line, true, false⟩]) ∧
    (startsWithChar '>' line = true →
      displayRows [line] = [⟨dropTwo line, false, true⟩]) := by
  constructor
  · intro h
    simp [displayRows, h]
  · intro h
    cases h1 : startsWithChar '<' line with
    | false => simp [displayRows, h1, h]
    | true =>
      exfalso
      cases hd : line.data with
      | nil => simp [startsWithChar, hd] at h
      | cons x xs =>
        simp [startsWithChar, hd] at h h1
        subst h1
        exact absurd h (by decide)

/-- Witness for C10: a bare `<` line and a `>` line with no space both
emit a row with an empty package field. -/
theorem c10_witness :
    displayRows ["<"] = [⟨"", true, false⟩] ∧
    displayRows [">x"] = [⟨"", false, true⟩] :=
  ⟨(c10_marker_strip "<").1 rfl, (c10_marker_strip ">x").2 rfl⟩

/-! ### Claims about compare_envs -/

/-- Membership after creating a file: the created file is present. -/
theorem mem_fsCreate_self (f : String) (fs : FileSys) : f ∈ fsCreate f fs := by
  by_cases h : f ∈ fs <;> simp [fsCreate, h]

/-- Membership after creating a file: present files stay present. -/
theorem mem_fsCreate_of_mem (f g : String) (fs : FileSys) (h : g ∈ fs) :
    g ∈ fsCreate f fs := by
  by_cases hf : f ∈ fs <;> simp [fsCreate, hf, h]

/-- Claim C8, counterexample to the claim as stated: when the rendering
step raises (second flag), `compare_envs` terminates with the exception
and both temporary files are still present in the working directory — the
two `os.remove` statements are written after the fallible steps with no
try/finally, so cleanup is not guaranteed on every execution path. -/
theorem c8_counterexample :
    "env1_packages.txt" ∈ (compare_envs "env1" "env2" [] false true).2 ∧
    "env2_packages.txt" ∈ (compare_envs "env1" "env2" [] false true).2 ∧
    (compare_envs "env1" "env2" [] false true).1.isSome = true := by
  decide

/-- Claim C8 (amended): for every pair of environment names and every
starting working directory, the temporary files `env1_packages.txt` and
`env2_packages.txt` are removed exactly on the execution path on which
the diff step and the rendering step both complete without raising; when
either step raises, the removal statements do not run and both files
remain in the working directory. -/
theorem c8_cleanup_on_success (env1 env2 : String) (fs : FileSys) :
    ((compare_envs env1 env2 fs false false).1 = none ∧
      "env1_packages.txt" ∉ (compare_envs env1 env2 fs false false).2 ∧
      "env2_packages.txt" ∉ (compare_envs env1 env2 fs false false).2) ∧
    (∀ diffRaises renderRaises : Bool, (diffRaises || renderRaises) = true →
      "env1_packages.txt" ∈ (compare_envs env1 env2 fs diffRaises renderRaises).2 ∧
      "env2_packages.txt" ∈ (compare_envs env1 env2 fs diffRaises renderRaises).2) := by
  constructor
  · refine ⟨rfl, ?_, ?_⟩
    · simp [compare_envs, fsRemove, List.mem_filter]
    · simp [compare_envs, fsRemove, List.mem_filter]
  · intro diffRaises renderRaises hflag
    have h1 : "env1_packages.txt" ∈
        fsCreate "env2_packages.txt" (fsCreate "env1_packages.txt" fs) :=
      mem_fsCreate_of_mem _ _ _ (mem_fsCreate_self _ _)
    have h2 : "env2_packages.txt" ∈
        fsCreate "env2_packages.txt" (fsCreate "env1_packages.txt" fs) :=
      mem_fsCreate_self _ _
    cases diffRaises with
    | true => exact ⟨h1, h2⟩
    | false =>
      simp only [Bool.false_or] at hflag
      subst hflag
      exact ⟨h1, h2⟩

/-- Witness for (amended) C8: on the empty working directory, a fully
successful run leaves no `env1_packages.txt`, while a run whose diff step
raises leaves it behind. -/
theorem c8_witness :
    "env1_packages.txt" ∉ (compare_envs "env1" "env2" [] false false).2 ∧
    "env1_packages.txt" ∈ (compare_envs "env1" "env2" [] true false).2 :=
  ⟨(c8_cleanup_on_success "env1" "env2" []).1.2.1,
    ((c8_cleanup_on_success "env1" "env2" []).2 true false rfl).1⟩
